import Mathlib

/-!
Verification of the tracer repository's rendering core against its
natural-language specification.

The Rust sources are shallowly embedded: machine integers become `Nat` with
explicit `% 2^32` / `% 2^64` where wrap-around or checked arithmetic matters,
fallible or panicking code returns `Option`, and native graphics-API calls are
reified as records of the arguments the code would pass to them.
-/

namespace Tracer

/-- 2^32, the modulus of `u32` arithmetic. -/
def u32Mod : Nat := 4294967296

/-- 2^64, the modulus of `u64` arithmetic. -/
def u64Mod : Nat := 18446744073709551616

/-- `u32` subtraction with release-mode (wrapping) semantics, for operands
below 2^32. -/
def subU32 (a b : Nat) : Nat := (a + u32Mod - b) % u32Mod

/-- Rust `Range<u32>`: half-open `start..end` (the field `end` is a Lean
keyword, so it is called `stop` here). -/
structure URange where
  start : Nat
  stop : Nat
deriving DecidableEq, Repr

/-- Arguments the replay passes to the native `cmd_draw_indexed` call. -/
structure VkDrawIndexedArgs where
  index_count : Nat
  instance_count : Nat
  first_index : Nat
  vertex_offset : Int
  first_instance : Nat
deriving DecidableEq, Repr

/-- Replay of a recorded `Command::DrawIndexed`
(`src/render/command_buffer.rs`, `CommandBuffer::draw_indexed`; the
`crates/rdx_renderer` copy is line-for-line identical): the code passes
`indices.end - indices.start`, `instances.end - indices.start`,
`indices.start`, `vertex_offset`, `instances.start`.  The encoder
(`encoder.rs`, `draw_indexed`) records the two ranges and the vertex offset
unchanged, so these are the recorded values. -/
def draw_indexed (indices : URange) (vertex_offset : Int) (instances : URange) :
    VkDrawIndexedArgs :=
  { index_count := subU32 indices.stop indices.start
    instance_count := subU32 instances.stop indices.start
    first_index := indices.start
    vertex_offset := vertex_offset
    first_instance := instances.start }

/-- `AttachmentInfo` from `render_pass.rs`; enum-typed fields are embedded as
`Nat` codes (their values never influence the control flow modelled here). -/
structure AttachmentInfo where
  format : Nat
  samples : Nat
  load_op : Nat
  store_op : Nat
  initial_layout : Option Nat
  final_layout : Nat
deriving DecidableEq, Repr

/-- `ClearValue` from `render_pass.rs`.  The payload type is a parameter so
that the `f32` components need not be modelled numerically; the control flow
of the replay never inspects them. -/
inductive ClearValue (α : Type) where
  | color (r g b a : α)
  | depthStencil (depth : α) (stencil : Nat)
deriving DecidableEq, Repr

/-- The native `vk::ClearValue` union, as filled in by the replay. -/
inductive VkClearValue (α : Type) where
  | color (r g b a : α)
  | depthStencil (depth : α) (stencil : Nat)
deriving DecidableEq, Repr

/-- The per-clear translation done inside `begin_render_pass`'s map. -/
def translateClear {α : Type} : ClearValue α → VkClearValue α
  | .color r g b a => .color r g b a
  | .depthStencil d s => .depthStencil d s

/-- Clear-value collection in the replay of `Command::BeginRenderPass`
(`src/render/command_buffer.rs`, `CommandBuffer::begin_render_pass`): the code
maps over `render_pass.info().attachments`, pulling `clears.next().unwrap()`
for each attachment.  `none` models the `unwrap` panic on iterator
exhaustion; clears left over after the attachments are exhausted are never
pulled. -/
def begin_render_pass_clear_values {α : Type} :
    List AttachmentInfo → List (ClearValue α) → Option (List (VkClearValue α))
  | [], _ => some []
  | _ :: _, [] => none
  | _ :: atts, c :: cs =>
      (begin_render_pass_clear_values atts cs).map (fun rest => translateClear c :: rest)

/-- `AccelerationStructureBuildGeometryInfo` (fields abstracted to resource
identifiers; only the emptiness of the info slice matters to the encoder's
early-out). -/
structure ASBuildInfo where
  src : Option Nat
  dst : Nat
  flags : Nat
  geometries : List Nat
  scratch : Nat
deriving DecidableEq, Repr

/-- `ImageMemoryBarrier` from `image.rs`: the image is a handle, layouts are
`vk::ImageLayout` codes, `family_transfer` is a `Range<u32>` of queue family
indices, and the subresource range is an abstract code. -/
structure ImageMemoryBarrier where
  image : Nat
  old_layout : Option Nat
  new_layout : Nat
  family_transfer : Option URange
  subresource : Nat
deriving DecidableEq, Repr

/-- The encoder's `Command` enum (`encoder.rs`): the closed tagged-variant
command log.  Resource references are embedded as `Nat` handles; payloads that
the verified claims inspect keep their structure. -/
inductive Command where
  | beginRenderPass (render_pass : Nat) (framebuffer : Nat) (clears : List (ClearValue Nat))
  | endRenderPass
  | bindGraphicsPipeline (pipeline : Nat)
  | bindRayTracingPipeline (pipeline : Nat)
  | bindDescriptorSets (bind_point : Nat) (layout : Nat) (first_set : Nat)
      (descriptor_sets : List Nat) (dynamic_offsets : List Nat)
  | setViewport (viewport : Nat)
  | setScissor (scissor : Nat)
  | draw (vertices : URange) (instances : URange)
  | drawIndexed (indices : URange) (vertex_offset : Int) (instances : URange)
  | updateBuffer (buffer : Nat) (offset : Nat) (data : List Nat)
  | bindVertexBuffers (first : Nat) (buffers : List (Nat × Nat))
  | bindIndexBuffer (buffer : Nat) (offset : Nat) (index_type : Nat)
  | buildAccelerationStructure (infos : List ASBuildInfo)
  | traceRays (shader_binding_table : Nat) (extent : Nat × Nat)
  | pipelineBarrier (src : Nat) (dst : Nat) (src_access_mask : Nat)
      (dst_access_mask : Nat) (image_barriers : List ImageMemoryBarrier)
deriving DecidableEq

/-- `EncoderInner::build_acceleration_structure` (`encoder.rs`): early-out on
an empty slice, otherwise push a `BuildAccelerationStructure` command onto the
recorded command list. -/
def build_acceleration_structure (commands : List Command) (infos : List ASBuildInfo) :
    List Command :=
  if infos.isEmpty then commands
  else commands ++ [Command.buildAccelerationStructure infos]

/-- C1: the claim says replaying a recorded DrawIndexed passes
`indices.end - indices.start` as the index count and
`instances.end - instances.start` as the instance count.  The code instead
passes `instances.end - indices.start` as the instance count (the bug the
spec's section 9 flags).  At the recorded command
`DrawIndexed { indices: 0..6, vertex_offset: 0, instances: 1..3 }` the replay
passes index count 6 but instance count 3, while
`instances.end - instances.start = 2`. -/
theorem drawIndexed_instance_count_bug :
    (draw_indexed ⟨0, 6⟩ 0 ⟨1, 3⟩).index_count = 6 ∧
    (draw_indexed ⟨0, 6⟩ 0 ⟨1, 3⟩).instance_count = 3 ∧
    subU32 3 1 = 2 ∧
    (draw_indexed ⟨0, 6⟩ 0 ⟨1, 3⟩).instance_count ≠ subU32 3 1 := by
  refine ⟨rfl, rfl, rfl, ?_⟩
  decide

/-- C2 counterexample: the claim says replaying BeginRenderPass with
`clears.len() != attachments.len()` always panics.  With one attachment and
two clear values the replay succeeds, silently ignoring the second clear
value: no panic occurs even though the lengths differ. -/
theorem begin_render_pass_longer_clears_no_panic :
    ([ClearValue.color 1 2 3 4, ClearValue.color 5 6 7 8].length ≠
      [(⟨0, 0, 0, 0, none, 0⟩ : AttachmentInfo)].length) ∧
    begin_render_pass_clear_values [(⟨0, 0, 0, 0, none, 0⟩ : AttachmentInfo)]
        [ClearValue.color 1 2 3 4, ClearValue.color 5 6 7 8] =
      some [VkClearValue.color 1 2 3 4] := by
  exact ⟨by decide, rfl⟩

/-- C2 (amended): the clear-value translation panics (returns `none`) exactly
when there are fewer clears than attachments; with at least as many clears it
succeeds using precisely the first `attachments.length` clears, silently
truncating a longer clear list and never padding a shorter one. -/
theorem begin_render_pass_clears_amended {α : Type}
    (atts : List AttachmentInfo) (clears : List (ClearValue α)) :
    begin_render_pass_clear_values atts clears =
      if clears.length < atts.length then none
      else some ((clears.take atts.length).map translateClear) := by
  induction atts generalizing clears with
  | nil => simp [begin_render_pass_clear_values]
  | cons a atts ih =>
      cases clears with
      | nil => simp [begin_render_pass_clear_values]
      | cons c cs =>
          simp only [begin_render_pass_clear_values, ih, List.length_cons, List.take, List.map]
          by_cases h : cs.length < atts.length
          · simp [h, Nat.succ_lt_succ h]
          · have h2 : ¬ cs.length + 1 < atts.length + 1 := by omega
            simp [h, h2]

/-- `util.rs` `Align<u64>::align_up`:
`Some(align.checked_add(value)? & !align)`.  `none` is the checked-add
overflow, which every caller `unwrap`s — a fatal panic, never silent
wrap-around.  Bitwise not of `align` in `u64` is `(2^64 - 1) ^^^ align`. -/
def align_up (align value : Nat) : Option Nat :=
  if align + value < u64Mod then
    some ((align + value) &&& ((u64Mod - 1) ^^^ align))
  else none

/-- The group stride computed by `Device::create_shader_binding_table`
(`device.rs`): `group_align = (shader_group_base_alignment - 1) as u64` (the
subtraction is `u32`, release-mode wrapping) and
`group_stride = align_up(group_align, group_size).unwrap()` where
`group_size = shader_group_handle_size as u64`. -/
def sbt_group_stride (shader_group_handle_size shader_group_base_alignment : Nat) :
    Option Nat :=
  align_up ((shader_group_base_alignment + u32Mod - 1) % u32Mod) shader_group_handle_size

/-- Clearing the low `k` bits of a 64-bit value rounds it down to a multiple
of `2^k`: the mask `!(2^k - 1)` kept by `align_up` is exactly the bits
`k..63`. -/
theorem land_not_mask (x k : Nat) (hx : x < u64Mod) (hk : k ≤ 64) :
    x &&& ((u64Mod - 1) ^^^ (2 ^ k - 1)) = (x / 2 ^ k) * 2 ^ k := by
  have h64 : u64Mod = 2 ^ 64 := by norm_num [u64Mod]
  rw [h64] at hx ⊢
  have hmain : x &&& ((2 ^ 64 - 1) ^^^ (2 ^ k - 1)) = (x >>> k) <<< k := by
    apply Nat.eq_of_testBit_eq
    intro i
    simp only [Nat.testBit_and, Nat.testBit_xor, Nat.testBit_two_pow_sub_one,
      Nat.testBit_shiftLeft, Nat.testBit_shiftRight]
    rcases Nat.lt_or_ge i k with hik | hik
    · have h164 : i < 64 := lt_of_lt_of_le hik hk
      have hki : ¬ k ≤ i := by omega
      simp [hik, h164, hki]
    · rcases Nat.lt_or_ge i 64 with h164 | h164
      · have hik2 : ¬ i < k := by omega
        simp [hik2, h164, hik, Nat.add_sub_cancel' hik]
      · have hik2 : ¬ i < 64 := by omega
        have hki : k ≤ i := by omega
        have hb : x.testBit i = false :=
          Nat.testBit_lt_two_pow (lt_of_lt_of_le hx (Nat.pow_le_pow_right (by omega) h164))
        have hb2 : x.testBit (k + (i - k)) = false := by
          rw [Nat.add_sub_cancel' hki]; exact hb
        simp [hik2, hb, hb2]
  rw [hmain, Nat.shiftRight_eq_div_pow, Nat.shiftLeft_eq]

/-- C3 counterexample: for the pair `(handle_size, base_alignment) = (1, 3)`
the computed stride is 1, and `1 % 3 ≠ 0`: the claimed divisibility fails for
a non-power-of-two base alignment (the mask trick in `align_up` assumes a
power of two). -/
theorem sbt_stride_not_aligned_for_non_pow2 :
    sbt_group_stride 1 3 = some 1 ∧ (1 : Nat) % 3 ≠ 0 := by
  constructor
  · decide
  · decide

/-- C3 (amended): whenever the base alignment is a power of two (as the
graphics API guarantees for `shaderGroupBaseAlignment`) and the handle size
fits in `u32`, the stride computed by `create_shader_binding_table` is
divisible by the base alignment and at least the handle size; and the checked
addition inside `align_up` yields `none` (an `unwrap` panic, i.e. a fatal
error) exactly when it would overflow `u64`, never silently wrapping. -/
theorem sbt_stride_aligned (hs ba k : Nat) (hba : ba = 2 ^ k) (hk : k ≤ 32)
    (hhs : hs < u32Mod) :
    (∃ s, sbt_group_stride hs ba = some s ∧ s % ba = 0 ∧ hs ≤ s) ∧
    (∀ a v : Nat, align_up a v = none ↔ u64Mod ≤ a + v) := by
  subst hba
  constructor
  · have hpos : 0 < 2 ^ k := pow_pos (by omega) k
    have hle32 : (2 : Nat) ^ k ≤ 2 ^ 32 := Nat.pow_le_pow_right (by omega) hk
    have h32 : u32Mod = 2 ^ 32 := by norm_num [u32Mod]
    have hlt : 2 ^ k - 1 < u32Mod := by omega
    have hmask : (2 ^ k + u32Mod - 1) % u32Mod = 2 ^ k - 1 := by
      have he : 2 ^ k + u32Mod - 1 = (2 ^ k - 1) + u32Mod := by omega
      rw [he, Nat.add_mod_right, Nat.mod_eq_of_lt hlt]
    have h64 : u64Mod = 2 ^ 64 := by norm_num [u64Mod]
    have hsum : (2 ^ k - 1) + hs < u64Mod := by
      have : u32Mod < u64Mod := by norm_num [u32Mod, u64Mod]
      omega
    have hland := land_not_mask ((2 ^ k - 1) + hs) k hsum (by omega)
    refine ⟨(((2 ^ k - 1) + hs) / 2 ^ k) * 2 ^ k, ?_, ?_, ?_⟩
    · unfold sbt_group_stride align_up
      rw [hmask, if_pos hsum, hland]
    · exact Nat.mul_mod_left _ _
    · have hd := Nat.div_add_mod ((2 ^ k - 1) + hs) (2 ^ k)
      have hr : ((2 ^ k - 1) + hs) % 2 ^ k < 2 ^ k := Nat.mod_lt _ hpos
      rw [mul_comm]
      generalize hq : ((2 ^ k - 1) + hs) / 2 ^ k = q at hd ⊢
      generalize hm : ((2 ^ k - 1) + hs) % 2 ^ k = m at hd hr
      generalize hy : 2 ^ k * q = y at hd ⊢
      omega
  · intro a v
    by_cases h : a + v < u64Mod
    · simp only [align_up, if_pos h]
      constructor
      · intro hc; cases hc
      · intro hc; omega
    · simp only [align_up, if_neg h]
      constructor
      · intro _; omega
      · intro _; trivial

/-- Witness for `sbt_stride_aligned` at the pair `(5, 4)` with `4 = 2^2`:
the computed stride is 8, a multiple of 4 and at least 5. -/
theorem sbt_stride_aligned_witness :
    ((4 : Nat) = 2 ^ 2 ∧ 2 ≤ 32 ∧ (5 : Nat) < u32Mod) ∧
    ((∃ s, sbt_group_stride 5 4 = some s ∧ s % 4 = 0 ∧ 5 ≤ s) ∧
     (∀ a v : Nat, align_up a v = none ↔ u64Mod ≤ a + v)) :=
  ⟨⟨rfl, by decide, by decide⟩, sbt_stride_aligned 5 4 2 rfl (by decide) (by decide)⟩

/-- C7: calling `build_acceleration_structure` with an empty slice of build
infos returns immediately and leaves the encoder's recorded command list
unchanged: no `BuildAccelerationStructure` command is appended. -/
theorem build_acceleration_structure_empty_noop (commands : List Command) :
    build_acceleration_structure commands [] = commands := by
  simp [build_acceleration_structure]

/-- One destruction step of `Device::cleanup` (`device.rs`): each slab is
swept in a single loop, so the steps are totally ordered; the final two steps
destroy the instance and the device themselves. -/
inductive CleanupStep where
  | buffers
  | swapchains
  | semaphores
  | fences
  | framebuffers
  | imageViews
  | images
  | samplers
  | descriptorPools
  | descriptorSetLayouts
  | pipelineLayouts
  | pipelines
  | renderPasses
  | shaderModules
  | accelerationStructures
  | instanceHandle
  | deviceHandle
deriving DecidableEq, Repr, Fintype

/-- The destruction order executed by `Device::cleanup` (`device.rs`,
lines 106-210), transcribed loop by loop, ending with `destroy_instance` and
then `destroy_device`. -/
def cleanupOrder : List CleanupStep :=
  [CleanupStep.buffers, CleanupStep.swapchains, CleanupStep.semaphores,
   CleanupStep.fences, CleanupStep.framebuffers, CleanupStep.imageViews,
   CleanupStep.images, CleanupStep.samplers, CleanupStep.descriptorPools,
   CleanupStep.descriptorSetLayouts, CleanupStep.pipelineLayouts,
   CleanupStep.pipelines, CleanupStep.renderPasses, CleanupStep.shaderModules,
   CleanupStep.accelerationStructures, CleanupStep.instanceHandle,
   CleanupStep.deviceHandle]

/-- Position of a destruction step within `cleanupOrder`. -/
def destroyPos (s : CleanupStep) : Nat := cleanupOrder.indexOf s

/-- C5 counterexample: the claim says every pipeline is destroyed before its
pipeline layout and that render passes and shader modules come last among
bound resources.  In `Device::cleanup` the pipeline-layout slab is swept
before the pipeline slab, and the acceleration-structure slab is swept after
the shader-module slab, so both parts of the claimed order are false. -/
theorem cleanup_claimed_order_false :
    destroyPos CleanupStep.pipelineLayouts < destroyPos CleanupStep.pipelines ∧
    destroyPos CleanupStep.shaderModules < destroyPos CleanupStep.accelerationStructures := by
  decide

/-- C5 (amended): `Device::cleanup` destroys every slab's contents in a fixed
order in which buffers, images, image views and samplers precede descriptor
pools and descriptor-set layouts; pipeline layouts are destroyed before
pipelines (not after, as claimed); render passes and shader modules follow
the pipelines but precede the acceleration structures, which are the last
slab; and every slab is swept before the instance and the device are
destroyed. -/
theorem cleanup_actual_order :
    (destroyPos CleanupStep.buffers < destroyPos CleanupStep.descriptorPools ∧
     destroyPos CleanupStep.images < destroyPos CleanupStep.descriptorPools ∧
     destroyPos CleanupStep.imageViews < destroyPos CleanupStep.descriptorPools ∧
     destroyPos CleanupStep.samplers < destroyPos CleanupStep.descriptorPools ∧
     destroyPos CleanupStep.descriptorPools < destroyPos CleanupStep.descriptorSetLayouts) ∧
    destroyPos CleanupStep.pipelineLayouts < destroyPos CleanupStep.pipelines ∧
    (destroyPos CleanupStep.pipelines < destroyPos CleanupStep.renderPasses ∧
     destroyPos CleanupStep.renderPasses < destroyPos CleanupStep.shaderModules ∧
     destroyPos CleanupStep.shaderModules < destroyPos CleanupStep.accelerationStructures) ∧
    (∀ s : CleanupStep, s ≠ CleanupStep.instanceHandle → s ≠ CleanupStep.deviceHandle →
      destroyPos s < destroyPos CleanupStep.instanceHandle ∧
      destroyPos s < destroyPos CleanupStep.deviceHandle) := by
  decide

/-- One observable event of a pipeline `draw` call
(`pipeline/ray_tracing_pipeline.rs` and `pipeline/raster_pipeline.rs`, whose
fence logic is identical): waiting on and resetting a fence slot, recording
the frame's passes, and submitting them with the slot's fence. -/
inductive FrameEvent where
  | waitFence (slot : Nat)
  | resetFence (slot : Nat)
  | record (frame : Nat)
  | submitFence (frame : Nat) (slot : Nat)
deriving DecidableEq, Repr

/-- The event sequence of draw call `frame`
(`PathTracingPipeline::draw` / `RasterPipeline::draw`):
`fence = fences[frame % 2]`; `if frame > 1 { wait_fences; reset_fences }`;
then the passes are recorded and submitted with `Some(fence)`. -/
def drawEvents (frame : Nat) : List FrameEvent :=
  (if frame > 1 then [FrameEvent.waitFence (frame % 2), FrameEvent.resetFence (frame % 2)]
   else []) ++
  [FrameEvent.record frame, FrameEvent.submitFence frame (frame % 2)]

/-- Per-slot pending-submission state of the two fence slots: `some j` means
the fence in that slot was signalled by draw call `j`'s submission and has
not been waited on since. -/
def FenceState : Type := Option Nat × Option Nat

/-- Effect of one event on the pending-submission state. -/
def applyEvent (st : Option Nat × Option Nat) : FrameEvent → Option Nat × Option Nat
  | FrameEvent.waitFence slot => if slot = 0 then (none, st.2) else (st.1, none)
  | FrameEvent.resetFence _ => st
  | FrameEvent.record _ => st
  | FrameEvent.submitFence frame slot =>
      if slot = 0 then (some frame, st.2) else (st.1, some frame)

/-- State after processing a list of events from a given state. -/
def stateAfter (st : Option Nat × Option Nat) (evs : List FrameEvent) :
    Option Nat × Option Nat :=
  evs.foldl applyEvent st

/-- Pending-submission state at the moment draw call `k` begins: the whole
event trace of draw calls `0, …, k-1`, starting from no submissions. -/
def pendingBefore (k : Nat) : Option Nat × Option Nat :=
  stateAfter (none, none) ((List.range k).flatMap drawEvents)

/-- Read one slot of the pending state. -/
def slotPending (st : Option Nat × Option Nat) (slot : Nat) : Option Nat :=
  if slot = 0 then st.1 else st.2

/-- Number of in-flight (submitted, not yet waited) fence submissions. -/
def inFlight (st : Option Nat × Option Nat) : Nat :=
  (if st.1.isSome then 1 else 0) + (if st.2.isSome then 1 else 0)

/-- Write one slot of the pending state. -/
def setSlot (st : Option Nat × Option Nat) (slot : Nat) (v : Option Nat) :
    Option Nat × Option Nat :=
  if slot = 0 then (v, st.2) else (st.1, v)

theorem stateAfter_append (st : Option Nat × Option Nat)
    (l1 l2 : List FrameEvent) :
    stateAfter st (l1 ++ l2) = stateAfter (stateAfter st l1) l2 := by
  simp [stateAfter, List.foldl_append]

/-- Net effect of one draw call on the pending state: the slot `frame % 2`
ends up holding draw `frame`'s submission (the wait, when present, clears the
same slot the submit then fills). -/
theorem stateAfter_drawEvents (st : Option Nat × Option Nat) (frame : Nat) :
    stateAfter st (drawEvents frame) = setSlot st (frame % 2) (some frame) := by
  by_cases h : frame > 1 <;>
    by_cases h2 : frame % 2 = 0 <;>
      simp [drawEvents, stateAfter, applyEvent, setSlot, h, h2]

theorem pendingBefore_succ (k : Nat) :
    pendingBefore (k + 1) = setSlot (pendingBefore k) (k % 2) (some k) := by
  unfold pendingBefore
  rw [List.range_succ, List.flatMap_append, stateAfter_append]
  simp [stateAfter_drawEvents]

theorem slotPending_setSlot (st : Option Nat × Option Nat) (i j : Nat)
    (v : Option Nat) (hi : i ≤ 1) (hj : j ≤ 1) :
    slotPending (setSlot st j v) i = if i = j then v else slotPending st i := by
  interval_cases i <;> interval_cases j <;> simp [slotPending, setSlot]

/-- Two-slot invariant: at the start of draw call `k` (for `k ≥ 2`), slot
`k % 2` still holds draw `k - 2`'s submission and the other slot holds draw
`k - 1`'s. -/
theorem pendingBefore_inv (k : Nat) (h : 2 ≤ k) :
    slotPending (pendingBefore k) (k % 2) = some (k - 2) ∧
    slotPending (pendingBefore k) ((k + 1) % 2) = some (k - 1) := by
  induction k, h using Nat.le_induction with
  | base => constructor <;> decide
  | succ k hk ih =>
      have h2 : k % 2 ≤ 1 := by omega
      have h3 : (k + 1) % 2 ≤ 1 := by omega
      have h4 : (k + 2) % 2 ≤ 1 := by omega
      have hne : (k + 1) % 2 ≠ k % 2 := by omega
      have heq : (k + 2) % 2 = k % 2 := by omega
      obtain ⟨ih1, ih2⟩ := ih
      rw [pendingBefore_succ]
      constructor
      · rw [slotPending_setSlot _ _ _ _ h3 h2, if_neg hne, ih2]
        exact congrArg some (by omega)
      · rw [slotPending_setSlot _ _ _ _ h4 h2, heq, if_pos rfl]
        exact congrArg some (by omega)

/-- C4: for draw call `k ≥ 2` on the 2 double-buffered fence slots, the
call's event sequence waits on and resets fence slot `k % 2` before recording
anything, and the submission pending on that slot at that moment is exactly
draw call `k - 2`'s; hence at most the two slots' submissions are ever in
flight, and the wait is skipped precisely for the first two draw calls. -/
theorem frame_fence_double_buffering (k : Nat) (h : 2 ≤ k) :
    drawEvents k =
      [FrameEvent.waitFence (k % 2), FrameEvent.resetFence (k % 2),
       FrameEvent.record k, FrameEvent.submitFence k (k % 2)] ∧
    slotPending (pendingBefore k) (k % 2) = some (k - 2) ∧
    (∀ st, inFlight st ≤ 2) ∧
    drawEvents 0 = [FrameEvent.record 0, FrameEvent.submitFence 0 0] ∧
    drawEvents 1 = [FrameEvent.record 1, FrameEvent.submitFence 1 1] := by
  refine ⟨?_, (pendingBefore_inv k h).1, ?_, by decide, by decide⟩
  · have hgt : k > 1 := by omega
    simp [drawEvents, hgt]
  · intro st
    unfold inFlight
    by_cases h1 : st.1.isSome <;> by_cases h2 : st.2.isSome <;> simp [h1, h2]

/-- Witness for `frame_fence_double_buffering` at draw call 5: the wait
targets slot 1, whose pending submission is draw call 3's. -/
theorem frame_fence_double_buffering_witness :
    2 ≤ 5 ∧
    (drawEvents 5 =
      [FrameEvent.waitFence (5 % 2), FrameEvent.resetFence (5 % 2),
       FrameEvent.record 5, FrameEvent.submitFence 5 (5 % 2)] ∧
    slotPending (pendingBefore 5) (5 % 2) = some (5 - 2) ∧
    (∀ st, inFlight st ≤ 2) ∧
    drawEvents 0 = [FrameEvent.record 0, FrameEvent.submitFence 0 0] ∧
    drawEvents 1 = [FrameEvent.record 1, FrameEvent.submitFence 1 1]) :=
  ⟨by decide, frame_fence_double_buffering 5 (by decide)⟩

/-- `DescriptorType` from `descriptor.rs`; the Rust discriminants are
0..11 in declaration order, and `to_erupt` maps each variant to the
corresponding native descriptor type. -/
inductive DescriptorType where
  | sampler
  | combinedImageSampler
  | sampledImage
  | storageImage
  | uniformTexelBuffer
  | storageTexelBuffer
  | uniformBuffer
  | storageBuffer
  | uniformBufferDynamic
  | storageBufferDynamic
  | inputAttachment
  | accelerationStructure
deriving DecidableEq, Repr, Fintype

/-- The `as usize` discriminant used to index the size accumulator array. -/
def descriptorTypeIndex : DescriptorType → Nat
  | .sampler => 0
  | .combinedImageSampler => 1
  | .sampledImage => 2
  | .storageImage => 3
  | .uniformTexelBuffer => 4
  | .storageTexelBuffer => 5
  | .uniformBuffer => 6
  | .storageBuffer => 7
  | .uniformBufferDynamic => 8
  | .storageBufferDynamic => 9
  | .inputAttachment => 10
  | .accelerationStructure => 11

/-- `descriptor_type_from_index` (`descriptor.rs`); `none` is the
`unreachable!` arm, never hit for indices below 12. -/
def descriptor_type_from_index : Nat → Option DescriptorType
  | 0 => some .sampler
  | 1 => some .combinedImageSampler
  | 2 => some .sampledImage
  | 3 => some .storageImage
  | 4 => some .uniformTexelBuffer
  | 5 => some .storageTexelBuffer
  | 6 => some .uniformBuffer
  | 7 => some .storageBuffer
  | 8 => some .uniformBufferDynamic
  | 9 => some .storageBufferDynamic
  | 10 => some .inputAttachment
  | 11 => some .accelerationStructure
  | _ => none

/-- `DescriptorSetLayoutBinding` (`descriptor.rs`); stage and binding flags
are embedded as `Nat` codes. -/
structure DescriptorSetLayoutBinding where
  binding : Nat
  descriptor_type : DescriptorType
  count : Nat
  stages : Nat
  flags : Nat
deriving DecidableEq, Repr

/-- `DESCRIPTOR_TYPES_COUNT` from `descriptor.rs`. -/
def DESCRIPTOR_TYPES_COUNT : Nat := 12

/-- `DescriptorSizesBuilder::add_binding`:
`self.sizes[binding.descriptor_type as usize] += binding.count` (`u32`
addition, modelled with its wrap-around modulus). -/
def add_binding (sizes : Nat → Nat) (b : DescriptorSetLayoutBinding) : Nat → Nat :=
  fun i =>
    if i = descriptorTypeIndex b.descriptor_type then (sizes i + b.count) % u32Mod
    else sizes i

/-- `DescriptorSizesBuilder::from_bindings`: fold `add_binding` over the
binding list starting from the all-zero accumulator. -/
def from_bindings (bindings : List DescriptorSetLayoutBinding) : Nat → Nat :=
  bindings.foldl add_binding (fun _ => 0)

/-- One iteration of `DescriptorSizesBuilder::build`'s loop: a pool-size
entry is emitted for index `i` exactly when the accumulated size is
non-zero. -/
def buildEntry (sizes : Nat → Nat) (i : Nat) : List (DescriptorType × Nat) :=
  if sizes i > 0 then
    match descriptor_type_from_index i with
    | some t => [(t, sizes i)]
    | none => []
  else []

/-- `DescriptorSizesBuilder::build` compacted to the `as_slice` view of
`DescriptorSizes`: the emitted `(type, descriptor_count)` entries, in index
order, one per non-zero accumulator cell. -/
def buildSizes (sizes : Nat → Nat) : List (DescriptorType × Nat) :=
  (List.range DESCRIPTOR_TYPES_COUNT).flatMap (buildEntry sizes)

/-- The native pool-creation arguments `Device::create_descriptor_set`
passes: `max_sets(1)` and `pool_sizes(&info.layout.sizes())`; exactly one
pool is created per call. -/
structure VkDescriptorPoolCreateInfo where
  max_sets : Nat
  pool_sizes : List (DescriptorType × Nat)
deriving DecidableEq, Repr

/-- Pool construction for a descriptor set of the given layout bindings
(`Device::create_descriptor_set_layout` computes
`DescriptorSizes::from_bindings`, and `Device::create_descriptor_set` builds
one pool from them with `max_sets(1)`). -/
def create_descriptor_set_pool (bindings : List DescriptorSetLayoutBinding) :
    VkDescriptorPoolCreateInfo :=
  { max_sets := 1
    pool_sizes := buildSizes (from_bindings bindings) }

/-- The pool-size entries recorded for one descriptor type. -/
def entriesFor (t : DescriptorType) (l : List (DescriptorType × Nat)) :
    List (DescriptorType × Nat) :=
  l.filter (fun p => decide (p.1 = t))

/-- Sum of the `count` fields across all bindings of one descriptor type. -/
def bindingTotal (t : DescriptorType) (bindings : List DescriptorSetLayoutBinding) : Nat :=
  ((bindings.filter (fun b => decide (b.descriptor_type = t))).map
    DescriptorSetLayoutBinding.count).sum

theorem descriptorTypeIndex_inj (a b : DescriptorType)
    (h : descriptorTypeIndex a = descriptorTypeIndex b) : a = b := by
  revert h
  revert a b
  decide

theorem entriesFor_buildSizes (t : DescriptorType) (sizes : Nat → Nat) :
    entriesFor t (buildSizes sizes) =
      if sizes (descriptorTypeIndex t) > 0 then
        [(t, sizes (descriptorTypeIndex t))]
      else [] := by
  have hr : List.range DESCRIPTOR_TYPES_COUNT = [0, 1, 2, 3, 4, 5, 6, 7, 8, 9, 10, 11] := rfl
  cases t <;>
    simp [buildSizes, hr, buildEntry, entriesFor, descriptor_type_from_index,
      descriptorTypeIndex, List.filter_append, apply_ite (List.filter _)]

theorem foldl_add_binding (bindings : List DescriptorSetLayoutBinding)
    (t : DescriptorType) (sizes : Nat → Nat)
    (h0 : sizes (descriptorTypeIndex t) < u32Mod) :
    (bindings.foldl add_binding sizes) (descriptorTypeIndex t) =
      (sizes (descriptorTypeIndex t) + bindingTotal t bindings) % u32Mod := by
  induction bindings generalizing sizes with
  | nil => simp [bindingTotal, Nat.mod_eq_of_lt h0]
  | cons b bs ih =>
      rw [List.foldl_cons]
      by_cases hb : b.descriptor_type = t
      · have hupd : add_binding sizes b (descriptorTypeIndex t) =
            (sizes (descriptorTypeIndex t) + b.count) % u32Mod := by
          simp [add_binding, hb]
        have hlt : add_binding sizes b (descriptorTypeIndex t) < u32Mod := by
          rw [hupd]
          have : 0 < u32Mod := by decide
          exact Nat.mod_lt _ this
        rw [ih _ hlt, hupd]
        have htot : bindingTotal t (b :: bs) = b.count + bindingTotal t bs := by
          simp [bindingTotal, hb]
        rw [htot]
        have hM : u32Mod = 4294967296 := rfl
        rw [hM]
        omega
      · have hne : descriptorTypeIndex t ≠ descriptorTypeIndex b.descriptor_type := by
          intro hcon
          exact hb (descriptorTypeIndex_inj _ _ hcon.symm)
        have hupd : add_binding sizes b (descriptorTypeIndex t) =
            sizes (descriptorTypeIndex t) := by
          simp [add_binding, hne]
        have hlt : add_binding sizes b (descriptorTypeIndex t) < u32Mod := by
          rw [hupd]; exact h0
        rw [ih _ hlt, hupd]
        have htot : bindingTotal t (b :: bs) = bindingTotal t bs := by
          simp [bindingTotal, hb]
        rw [htot]

/-- C6: for every descriptor-set-layout binding list, the pool constructed
for a set of that layout has `max_sets = 1`, and for each descriptor type its
pool-size entries are exactly one entry carrying the sum of the `count`
fields across all bindings of that type — and no entry at all when that sum
is zero. -/
theorem descriptor_pool_sizes_exact (bindings : List DescriptorSetLayoutBinding)
    (t : DescriptorType) (h : bindingTotal t bindings < u32Mod) :
    (create_descriptor_set_pool bindings).max_sets = 1 ∧
    entriesFor t (create_descriptor_set_pool bindings).pool_sizes =
      (if bindingTotal t bindings = 0 then [] else [(t, bindingTotal t bindings)]) := by
  refine ⟨rfl, ?_⟩
  have hbuild := entriesFor_buildSizes t (from_bindings bindings)
  have hfold := foldl_add_binding bindings t (fun _ => 0)
    (by change (0 : Nat) < u32Mod; decide)
  have hval : from_bindings bindings (descriptorTypeIndex t) = bindingTotal t bindings := by
    unfold from_bindings
    rw [hfold, Nat.zero_add, Nat.mod_eq_of_lt h]
  show entriesFor t (buildSizes (from_bindings bindings)) = _
  rw [hbuild, hval]
  by_cases hz : bindingTotal t bindings = 0
  · simp [hz]
  · have : bindingTotal t bindings > 0 := by omega
    simp [hz, this]

/-- Witness for `descriptor_pool_sizes_exact`: two uniform-buffer bindings
with counts 2 and 3 and one storage-image binding yield a single
uniform-buffer pool entry of 5. -/
theorem descriptor_pool_sizes_exact_witness :
    bindingTotal DescriptorType.uniformBuffer
        [⟨0, DescriptorType.uniformBuffer, 2, 0, 0⟩,
         ⟨1, DescriptorType.uniformBuffer, 3, 0, 0⟩,
         ⟨2, DescriptorType.storageImage, 1, 0, 0⟩] < u32Mod ∧
    ((create_descriptor_set_pool
        [⟨0, DescriptorType.uniformBuffer, 2, 0, 0⟩,
         ⟨1, DescriptorType.uniformBuffer, 3, 0, 0⟩,
         ⟨2, DescriptorType.storageImage, 1, 0, 0⟩]).max_sets = 1 ∧
     entriesFor DescriptorType.uniformBuffer
        (create_descriptor_set_pool
          [⟨0, DescriptorType.uniformBuffer, 2, 0, 0⟩,
           ⟨1, DescriptorType.uniformBuffer, 3, 0, 0⟩,
           ⟨2, DescriptorType.storageImage, 1, 0, 0⟩]).pool_sizes =
       (if bindingTotal DescriptorType.uniformBuffer
              [⟨0, DescriptorType.uniformBuffer, 2, 0, 0⟩,
               ⟨1, DescriptorType.uniformBuffer, 3, 0, 0⟩,
               ⟨2, DescriptorType.storageImage, 1, 0, 0⟩] = 0 then []
        else [(DescriptorType.uniformBuffer,
               bindingTotal DescriptorType.uniformBuffer
                 [⟨0, DescriptorType.uniformBuffer, 2, 0, 0⟩,
                  ⟨1, DescriptorType.uniformBuffer, 3, 0, 0⟩,
                  ⟨2, DescriptorType.storageImage, 1, 0, 0⟩])])) :=
  ⟨by decide,
   descriptor_pool_sizes_exact
     [⟨0, DescriptorType.uniformBuffer, 2, 0, 0⟩,
      ⟨1, DescriptorType.uniformBuffer, 3, 0, 0⟩,
      ⟨2, DescriptorType.storageImage, 1, 0, 0⟩]
     DescriptorType.uniformBuffer (by decide)⟩

/-- A slot index into a 3-element semaphore ring. -/
def finMod3 (n : Nat) : Fin 3 := ⟨n % 3, Nat.mod_lt n (by decide)⟩

/-- `SwapchainImageAndSemaphores` (`swapchain.rs`): a presentable image with
its 3 acquire and 3 release semaphores and the two round-robin counters.
Semaphores are embedded as `Nat` handles. -/
structure SwapchainImageAndSemaphores where
  image : Nat
  acquire : Fin 3 → Nat
  acquire_index : Nat
  release : Fin 3 → Nat
  release_index : Nat

/-- `SwapchainInner` (`swapchain.rs`). -/
structure SwapchainInner where
  handle : Nat
  images : List SwapchainImageAndSemaphores
  extent : Nat × Nat
  format : Nat
  usage : Nat

/-- `SwapchainImageInfo` (`swapchain.rs`): the image together with the
acquire semaphore the caller must wait on and the release semaphore it must
signal before presenting. -/
structure SwapchainImageInfo where
  image : Nat
  wait : Nat
  signal : Nat
deriving DecidableEq, Repr

/-- `SwapchainImage` (`swapchain.rs`). -/
structure SwapchainImage where
  info : SwapchainImageInfo
  handle : Nat
  index : Nat
deriving DecidableEq, Repr

/-- `Swapchain` (`swapchain.rs`): an optional active inner chain, retired
chains, and the floating free semaphore rotated through the acquire slots. -/
structure Swapchain where
  inner : Option SwapchainInner
  retired : List SwapchainInner
  retired_offset : Nat
  free_semaphore : Nat
  surface : Nat

/-- `Swapchain::acquire_next_image` (`swapchain.rs`, lines 169-206).  The
`index` argument is the image index returned by the blocking native
`acquire_next_image_khr` call, which by the surface contract is always below
the image count; the source then swaps `free_semaphore` into
`acquire[acquire_index % 3]`, bumps `acquire_index`, clones
`release[release_index % 3]` as the signal semaphore and bumps
`release_index`.  The `none` on an out-of-range index stands for the
source's vector-indexing panic, unreachable under that contract. -/
def acquire_next_image (s : Swapchain) (index : Nat) :
    Option (SwapchainImage × Swapchain) :=
  match s.inner with
  | none => none
  | some inner =>
      match inner.images.get? index with
      | none => none
      | some slot =>
          let wait := s.free_semaphore
          let aIdx := finMod3 slot.acquire_index
          let newFree := slot.acquire aIdx
          let slot2 : SwapchainImageAndSemaphores :=
            { slot with
                acquire := Function.update slot.acquire aIdx wait
                acquire_index := slot.acquire_index + 1
                release_index := slot.release_index + 1 }
          let signal := slot.release (finMod3 slot.release_index)
          some ({ info := { image := slot.image, wait := wait, signal := signal }
                  handle := inner.handle
                  index := index },
                { s with
                    inner := some { inner with images := inner.images.set index slot2 }
                    free_semaphore := newFree })

/-- C8: `acquire_next_image` returns `none` exactly when no active inner
chain exists; when a chain exists it returns the acquired image, whose wait
semaphore is the old free semaphore, whose signal semaphore is taken
round-robin from the image's 3 release slots, while the free semaphore is
rotated into the image's acquire slot `acquire_index % 3` (the displaced
acquire semaphore becomes the new free one) and both round-robin counters
advance by one. -/
theorem acquire_next_image_spec (s : Swapchain) (index : Nat)
    (hw : ∀ inner, s.inner = some inner → index < inner.images.length) :
    (acquire_next_image s index = none ↔ s.inner = none) ∧
    (∀ inner slot, s.inner = some inner → inner.images.get? index = some slot →
      ∃ img s2, acquire_next_image s index = some (img, s2) ∧
        img.info.wait = s.free_semaphore ∧
        img.info.signal = slot.release (finMod3 slot.release_index) ∧
        img.info.image = slot.image ∧
        img.index = index ∧
        img.handle = inner.handle ∧
        s2.free_semaphore = slot.acquire (finMod3 slot.acquire_index) ∧
        (∃ inner2, s2.inner = some inner2 ∧
          ∃ slot2, inner2.images.get? index = some slot2 ∧
            slot2.acquire (finMod3 slot.acquire_index) = s.free_semaphore ∧
            slot2.acquire_index = slot.acquire_index + 1 ∧
            slot2.release_index = slot.release_index + 1 ∧
            (∀ j : Fin 3, j ≠ finMod3 slot.acquire_index →
              slot2.acquire j = slot.acquire j) ∧
            (∀ j : Fin 3, slot2.release j = slot.release j))) := by
  constructor
  · cases hs : s.inner with
    | none => simp [acquire_next_image, hs]
    | some inner =>
        have hlen : index < inner.images.length := hw inner hs
        obtain ⟨slot, hslot⟩ : ∃ slot, inner.images.get? index = some slot := by
          cases hget : inner.images.get? index with
          | none =>
              exfalso
              rw [List.get?_eq_none] at hget
              omega
          | some slot => exact ⟨slot, rfl⟩
        have hslot2 : inner.images[index]? = some slot := by
          rw [← List.get?_eq_getElem?]
          exact hslot
        unfold acquire_next_image
        simp [hs, hslot2]
  · intro inner slot hs hslot
    have hlen : index < inner.images.length := hw inner hs
    unfold acquire_next_image
    simp only [hs, hslot]
    refine ⟨_, _, rfl, rfl, rfl, rfl, rfl, rfl, rfl, ?_⟩
    refine ⟨_, rfl, ?_⟩
    refine ⟨_, List.get?_set_eq_of_lt _ hlen, ?_, rfl, rfl, ?_, ?_⟩
    · exact Function.update_same _ _ _
    · intro j hj
      exact Function.update_noteq hj _ _
    · intro j
      rfl

/-- Witness for `acquire_next_image_spec`: a one-image chain with
distinguishable semaphore handles. -/
theorem acquire_next_image_spec_witness :
    (∀ inner,
        (Swapchain.mk
          (some (SwapchainInner.mk 7
            [SwapchainImageAndSemaphores.mk 42 (fun j => 10 + j.val) 0 (fun j => 20 + j.val) 0]
            (640, 480) 1 2)) [] 0 99 5).inner = some inner →
        0 < inner.images.length) ∧
    ((acquire_next_image
        (Swapchain.mk
          (some (SwapchainInner.mk 7
            [SwapchainImageAndSemaphores.mk 42 (fun j => 10 + j.val) 0 (fun j => 20 + j.val) 0]
            (640, 480) 1 2)) [] 0 99 5) 0 = none ↔
      (Swapchain.mk
          (some (SwapchainInner.mk 7
            [SwapchainImageAndSemaphores.mk 42 (fun j => 10 + j.val) 0 (fun j => 20 + j.val) 0]
            (640, 480) 1 2)) [] 0 99 5).inner = none) ∧
     (∀ inner slot,
        (Swapchain.mk
          (some (SwapchainInner.mk 7
            [SwapchainImageAndSemaphores.mk 42 (fun j => 10 + j.val) 0 (fun j => 20 + j.val) 0]
            (640, 480) 1 2)) [] 0 99 5).inner = some inner →
        inner.images.get? 0 = some slot →
        ∃ img s2,
          acquire_next_image
            (Swapchain.mk
              (some (SwapchainInner.mk 7
                [SwapchainImageAndSemaphores.mk 42 (fun j => 10 + j.val) 0 (fun j => 20 + j.val) 0]
                (640, 480) 1 2)) [] 0 99 5) 0 = some (img, s2) ∧
          img.info.wait =
            (Swapchain.mk
              (some (SwapchainInner.mk 7
                [SwapchainImageAndSemaphores.mk 42 (fun j => 10 + j.val) 0 (fun j => 20 + j.val) 0]
                (640, 480) 1 2)) [] 0 99 5).free_semaphore ∧
          img.info.signal = slot.release (finMod3 slot.release_index) ∧
          img.info.image = slot.image ∧
          img.index = 0 ∧
          img.handle = inner.handle ∧
          s2.free_semaphore = slot.acquire (finMod3 slot.acquire_index) ∧
          (∃ inner2, s2.inner = some inner2 ∧
            ∃ slot2, inner2.images.get? 0 = some slot2 ∧
              slot2.acquire (finMod3 slot.acquire_index) =
                (Swapchain.mk
                  (some (SwapchainInner.mk 7
                    [SwapchainImageAndSemaphores.mk 42 (fun j => 10 + j.val) 0
                      (fun j => 20 + j.val) 0]
                    (640, 480) 1 2)) [] 0 99 5).free_semaphore ∧
              slot2.acquire_index = slot.acquire_index + 1 ∧
              slot2.release_index = slot.release_index + 1 ∧
              (∀ j : Fin 3, j ≠ finMod3 slot.acquire_index →
                slot2.acquire j = slot.acquire j) ∧
              (∀ j : Fin 3, slot2.release j = slot.release j)))) :=
  ⟨fun inner h => by cases h; decide,
   acquire_next_image_spec
     (Swapchain.mk
       (some (SwapchainInner.mk 7
         [SwapchainImageAndSemaphores.mk 42 (fun j => 10 + j.val) 0 (fun j => 20 + j.val) 0]
         (640, 480) 1 2)) [] 0 99 5) 0
     (fun inner h => by cases h; decide)⟩

/-- `vk::ImageLayout::UNDEFINED`. -/
def VK_IMAGE_LAYOUT_UNDEFINED : Nat := 0

/-- `vk::QUEUE_FAMILY_IGNORED` (`!0u32`). -/
def VK_QUEUE_FAMILY_IGNORED : Nat := 4294967295

/-- The native `vk::MemoryBarrier` built by the replay. -/
structure VkMemoryBarrier where
  src_access_mask : Nat
  dst_access_mask : Nat
deriving DecidableEq, Repr

/-- The native `vk::ImageMemoryBarrier` built by the replay. -/
structure VkImageMemoryBarrier where
  image : Nat
  src_access_mask : Nat
  dst_access_mask : Nat
  old_layout : Nat
  new_layout : Nat
  src_queue_family_index : Nat
  dst_queue_family_index : Nat
  subresource_range : Nat
deriving DecidableEq, Repr

/-- Arguments of the one native `cmd_pipeline_barrier` call the replay
issues. -/
structure VkCmdPipelineBarrierArgs where
  src_stage_mask : Nat
  dst_stage_mask : Nat
  memory_barriers : List VkMemoryBarrier
  buffer_barriers : List Nat
  image_memory_barriers : List VkImageMemoryBarrier
deriving DecidableEq, Repr

/-- Per-entry translation inside `CommandBuffer::pipeline_barrier`
(`src/render/command_buffer.rs`, lines 284-313): both access-mask fields of
every image barrier receive `src_access_mask`; a missing `old_layout` becomes
`UNDEFINED`; a missing `family_transfer` leaves both queue-family indices
`QUEUE_FAMILY_IGNORED`. -/
def translate_image_barrier (src_access_mask : Nat) (b : ImageMemoryBarrier) :
    VkImageMemoryBarrier :=
  { image := b.image
    src_access_mask := src_access_mask
    dst_access_mask := src_access_mask
    old_layout :=
      match b.old_layout with
      | none => VK_IMAGE_LAYOUT_UNDEFINED
      | some l => l
    new_layout := b.new_layout
    src_queue_family_index :=
      match b.family_transfer with
      | none => VK_QUEUE_FAMILY_IGNORED
      | some r => r.start
    dst_queue_family_index :=
      match b.family_transfer with
      | none => VK_QUEUE_FAMILY_IGNORED
      | some r => r.stop
    subresource_range := b.subresource }

/-- Replay of a recorded `Command::PipelineBarrier`
(`CommandBuffer::pipeline_barrier`): one `cmd_pipeline_barrier` with a single
global memory barrier carrying the recorded access masks, no buffer
barriers, and one translated image barrier per recorded entry. -/
def pipeline_barrier (src dst src_access_mask dst_access_mask : Nat)
    (image_barriers : List ImageMemoryBarrier) : VkCmdPipelineBarrierArgs :=
  { src_stage_mask := src
    dst_stage_mask := dst
    memory_barriers := [⟨src_access_mask, dst_access_mask⟩]
    buffer_barriers := []
    image_memory_barriers := image_barriers.map (translate_image_barrier src_access_mask) }

/-- C9: replaying a recorded PipelineBarrier with `n` image-barrier entries
issues exactly one global memory barrier carrying the recorded src and dst
access masks, plus exactly `n` image-layout-transition barriers, in which a
recorded `old_layout = None` becomes the UNDEFINED (don't-care) prior layout
and `old_layout = Some(layout)` becomes exactly that layout, with the
recorded new layout and image preserved. -/
theorem pipeline_barrier_replay_shape (src dst sa da : Nat)
    (bs : List ImageMemoryBarrier) :
    (pipeline_barrier src dst sa da bs).memory_barriers = [⟨sa, da⟩] ∧
    (pipeline_barrier src dst sa da bs).image_memory_barriers.length = bs.length ∧
    (∀ i b, bs.get? i = some b →
      ∃ nb, (pipeline_barrier src dst sa da bs).image_memory_barriers.get? i = some nb ∧
        nb.old_layout =
          (match b.old_layout with
           | none => VK_IMAGE_LAYOUT_UNDEFINED
           | some l => l) ∧
        nb.new_layout = b.new_layout ∧
        nb.image = b.image) := by
  refine ⟨rfl, by simp [pipeline_barrier], ?_⟩
  intro i b hb
  refine ⟨translate_image_barrier sa b, ?_, rfl, rfl, rfl⟩
  show (bs.map (translate_image_barrier sa)).get? i = _
  rw [List.get?_map, hb]
  rfl

/-- Witness for `pipeline_barrier_replay_shape`: a two-entry barrier list,
one entry with a discarded prior layout and one with a precise one. -/
theorem pipeline_barrier_replay_shape_witness :
    (pipeline_barrier 1 2 4 8 [⟨30, none, 6, none, 0⟩, ⟨31, some 5, 7, some ⟨1, 2⟩, 0⟩]).memory_barriers = [⟨4, 8⟩] ∧
    (pipeline_barrier 1 2 4 8 [⟨30, none, 6, none, 0⟩, ⟨31, some 5, 7, some ⟨1, 2⟩, 0⟩]).image_memory_barriers.length =
      [(⟨30, none, 6, none, 0⟩ : ImageMemoryBarrier), ⟨31, some 5, 7, some ⟨1, 2⟩, 0⟩].length ∧
    (∀ i b, [(⟨30, none, 6, none, 0⟩ : ImageMemoryBarrier), ⟨31, some 5, 7, some ⟨1, 2⟩, 0⟩].get? i = some b →
      ∃ nb, (pipeline_barrier 1 2 4 8 [⟨30, none, 6, none, 0⟩, ⟨31, some 5, 7, some ⟨1, 2⟩, 0⟩]).image_memory_barriers.get? i = some nb ∧
        nb.old_layout =
          (match b.old_layout with
           | none => VK_IMAGE_LAYOUT_UNDEFINED
           | some l => l) ∧
        nb.new_layout = b.new_layout ∧
        nb.image = b.image) :=
  pipeline_barrier_replay_shape 1 2 4 8 [⟨30, none, 6, none, 0⟩, ⟨31, some 5, 7, some ⟨1, 2⟩, 0⟩]

/-- C10: in the replay of a recorded PipelineBarrier, every translated image
barrier receives the recorded source access mask in both its src and dst
access-mask fields, while the recorded destination access mask appears only
in the global memory barrier. -/
theorem pipeline_barrier_image_access_masks (src dst sa da : Nat)
    (bs : List ImageMemoryBarrier) :
    (∀ i b, bs.get? i = some b →
      ∃ nb, (pipeline_barrier src dst sa da bs).image_memory_barriers.get? i = some nb ∧
        nb.src_access_mask = sa ∧
        nb.dst_access_mask = sa) ∧
    (pipeline_barrier src dst sa da bs).memory_barriers.map
      VkMemoryBarrier.dst_access_mask = [da] ∧
    (pipeline_barrier src dst sa da bs).memory_barriers.map
      VkMemoryBarrier.src_access_mask = [sa] := by
  refine ⟨?_, rfl, rfl⟩
  intro i b hb
  refine ⟨translate_image_barrier sa b, ?_, rfl, rfl⟩
  show (bs.map (translate_image_barrier sa)).get? i = _
  rw [List.get?_map, hb]
  rfl

/-- Witness for `pipeline_barrier_image_access_masks` with distinct src and
dst access masks (4 and 8): the image barrier carries 4 in both fields. -/
theorem pipeline_barrier_image_access_masks_witness :
    (∀ i b, [(⟨30, some 3, 6, none, 0⟩ : ImageMemoryBarrier)].get? i = some b →
      ∃ nb, (pipeline_barrier 1 2 4 8 [⟨30, some 3, 6, none, 0⟩]).image_memory_barriers.get? i = some nb ∧
        nb.src_access_mask = 4 ∧
        nb.dst_access_mask = 4) ∧
    (pipeline_barrier 1 2 4 8 [⟨30, some 3, 6, none, 0⟩]).memory_barriers.map
      VkMemoryBarrier.dst_access_mask = [8] ∧
    (pipeline_barrier 1 2 4 8 [⟨30, some 3, 6, none, 0⟩]).memory_barriers.map
      VkMemoryBarrier.src_access_mask = [4] :=
  pipeline_barrier_image_access_masks 1 2 4 8 [⟨30, some 3, 6, none, 0⟩]

end Tracer
